import Mathlib

/-
Verification of the transcription pipeline in src/speech_to_text.py.

The embedding models the two core functions:
  - transcribe_chunk (lines 47-61): per-chunk retry loop around the
    recognition service, with exponential backoff on network errors.
  - process_audio (lines 63-146): checkpoint load / resume, the per-chunk
    transcribe-and-save loop, checkpoint cleanup, and final assembly.

External collaborators (pydub segmentation, the Google recognizer, the OS
file system) are modelled as inputs: a chunk is represented by the behaviour
of the recognition service on it (one outcome per attempt number), and the
checkpoint file is a single mutable slot, matching the fixed relative path
the code uses for it.
-/

namespace FreeSpeechToText

/-- Outcome of one call to recognizer.recognize_google on a chunk:
success with raw text, sr.UnknownValueError, or sr.RequestError. -/
inductive RecognitionOutcome
  | transcribed (text : String)
  | unknownValue
  | requestError
deriving Repr, DecidableEq

/-- Python str.capitalize for the ASCII texts the service returns: the first
character is upper-cased and every later character is lower-cased. -/
def pyCapitalize (s : String) : String :=
  match s.data with
  | [] => ""
  | c :: cs => String.mk (c.toUpper :: cs.map Char.toLower)

/-- Observable behaviour of one transcribe_chunk call: the returned value
(ok (some fragment) for a recognized chunk, ok none for the None return on
UnknownValueError, error for a propagated RequestError), the list of sleep
delays performed between attempts, and the number of recognition attempts. -/
structure TCOut where
  result : Except Unit (Option String)
  delays : List Nat
  attempts : Nat
deriving Repr

/-- Inner loop of transcribe_chunk (lines 49-61): attempt is the current
0-based attempt index, remaining the number of loop iterations left, delay
the current backoff delay. On requestError with a later attempt available it
sleeps delay, doubles it and retries; on the last attempt it re-raises. -/
def transcribeChunkGo (recognize : Nat → RecognitionOutcome) :
    Nat → Nat → Nat → TCOut
  | _, 0, _ => ⟨Except.ok none, [], 0⟩
  | attempt, remaining + 1, delay =>
    match recognize attempt with
    | RecognitionOutcome.transcribed text =>
        ⟨Except.ok (some (pyCapitalize text ++ ". ")), [], 1⟩
    | RecognitionOutcome.unknownValue => ⟨Except.ok none, [], 1⟩
    | RecognitionOutcome.requestError =>
        if remaining = 0 then ⟨Except.error (), [], 1⟩
        else
          let r := transcribeChunkGo recognize (attempt + 1) remaining (delay * 2)
          ⟨r.result, delay :: r.delays, r.attempts + 1⟩

/-- transcribe_chunk (lines 47-61). The recognizer is abstracted as a map
from attempt number to outcome; retries and delay are the parameters whose
defaults in the source are 3 and 1. -/
def transcribe_chunk (recognize : Nat → RecognitionOutcome)
    (retries delay : Nat) : TCOut :=
  transcribeChunkGo recognize 0 retries delay

/-- The parsed content of transcription_progress.json as written by the code
(lines 122-126): the source file path, the last attempted chunk index and the
accumulated fragment list. -/
structure Progress where
  file : String
  last_chunk : Nat
  text : List String
deriving Repr, DecidableEq

/-- Content of the checkpoint file on disk: either bytes that json.load
rejects, or a parseable Progress record. -/
inductive StoredFile
  | corrupt
  | valid (p : Progress)
deriving Repr, DecidableEq

/-- A chunk, abstracted as the behaviour of the recognition service on it:
the outcome of each numbered attempt. -/
def ChunkBehavior : Type := Nat → RecognitionOutcome

/-- Fixed relative path of the checkpoint file (line 84); it does not depend
on the audio source path. -/
def progress_file : String := "transcription_progress.json"

/-- Checkpoint load (lines 87-97): a present, parseable checkpoint whose
file field equals the current path yields its last_chunk as the start index
and its text as the accumulator; a corrupt or stale checkpoint, or a missing
file, yields start index 0 and an empty accumulator. -/
def loadResume (path : String) (fs0 : Option StoredFile) : Nat × List String :=
  match fs0 with
  | some (StoredFile.valid p) =>
      if p.file = path then (p.last_chunk, p.text) else (0, [])
  | _ => (0, [])

/-- One iteration of the chunk loop body (lines 105-133) at index i: run
transcribe_chunk with the source defaults (retries 3, delay 1); if it raised,
the except branch skips the rest of the body (no append, no save); otherwise
append the fragment when present and overwrite the checkpoint file with
the current path, index i and accumulator. -/
def processOne (path : String) (i : Nat) (chunk : ChunkBehavior)
    (acc : List String) (fs : Option StoredFile) :
    List String × Option StoredFile :=
  match (transcribe_chunk chunk 3 1).result with
  | Except.error _ => (acc, fs)
  | Except.ok none => (acc, some (StoredFile.valid ⟨path, i, acc⟩))
  | Except.ok (some frag) =>
      (acc ++ [frag], some (StoredFile.valid ⟨path, i, acc ++ [frag]⟩))

/-- The chunk loop (lines 101-133) over the remaining chunks, starting at
index i, threading the accumulator and the checkpoint-file state. -/
def processLoop (path : String) :
    Nat → List ChunkBehavior → List String × Option StoredFile →
    List String × Option StoredFile
  | _, [], st => st
  | i, c :: cs, (acc, fs) => processLoop path (i + 1) cs (processOne path i c acc fs)

/-- Sentinel returned when the accumulator is empty (line 140). -/
def noSpeech : String := "No speech could be recognized in the audio file."

/-- Accumulator and checkpoint state after the chunk loop: resume data is
loaded from the initial checkpoint state, the chunk list is sliced from the
start index (chunks[start_index:]) and enumerated from it. -/
def runAccum (path : String) (chunks : List ChunkBehavior)
    (fs0 : Option StoredFile) : List String × Option StoredFile :=
  processLoop path (loadResume path fs0).1
    (chunks.drop (loadResume path fs0).1) ((loadResume path fs0).2, fs0)

/-- process_audio (lines 63-146): load/resume, run the chunk loop, delete
the checkpoint file (lines 135-137, unconditionally removing whatever exists
at the fixed path), and return the sentinel on an empty accumulator or the
separator-free concatenation of the fragments (lines 139-142). The returned
pair is (result text, final checkpoint-file state). -/
def process_audio (path : String) (chunks : List ChunkBehavior)
    (fs0 : Option StoredFile) : String × Option StoredFile :=
  (if (runAccum path chunks fs0).1 = [] then noSpeech
   else String.join (runAccum path chunks fs0).1, none)

/-- A chunk recognized as t on every attempt. -/
def succChunk (t : String) : ChunkBehavior :=
  fun _ => RecognitionOutcome.transcribed t

/-- Chunk list in which chunk i is recognized as ts[i] on every attempt. -/
def succChunks (ts : List String) : List ChunkBehavior := ts.map succChunk

/-- A chunk whose every recognition attempt hits a network error. -/
def alwaysNetworkError : ChunkBehavior := fun _ => RecognitionOutcome.requestError

/-- A chunk recognized as "hello" on every attempt. -/
def helloChunk : ChunkBehavior := succChunk "hello"

/-- A chunk recognized as "bye" on every attempt. -/
def byeChunk : ChunkBehavior := succChunk "bye"

/-- File-system operations that the checkpoint save could consist of:
truncating open for write, a full sequential write of data, and a rename. -/
inductive FsOp
  | truncate (path : String)
  | writeAll (path : String) (data : String)
  | rename (src dst : String)
deriving Repr, DecidableEq

/-- Effect of one operation on the file system (path to optional content):
truncate empties the file, writeAll appends the data to the current content,
rename moves content from src to dst. -/
def applyOp (fs : String → Option String) : FsOp → String → Option String
  | FsOp.truncate p, q => if q = p then some "" else fs q
  | FsOp.writeAll p d, q => if q = p then some ((fs p).getD "" ++ d) else fs q
  | FsOp.rename src dst, q =>
      if q = dst then fs src else if q = src then none else fs q

/-- Run a list of file-system operations in order. -/
def runOps (fs : String → Option String) (ops : List FsOp) :
    String → Option String :=
  ops.foldl applyOp fs

/-- The operations of one checkpoint save (lines 127-128): open the
checkpoint file itself for writing, which truncates it, then json.dump the
serialized record into it. No temporary file and no rename is involved. -/
def saveOps (data : String) : List FsOp :=
  [FsOp.truncate progress_file, FsOp.writeAll progress_file data]

/-- File system holding oldC at the checkpoint path and nothing elsewhere. -/
def initFs (oldC : String) : String → Option String :=
  fun q => if q = progress_file then some oldC else none

/-- Atomicity property claimed for the save: interrupting it after any
prefix of its operations leaves the checkpoint file holding either the old
serialized checkpoint or the new one, never anything else. -/
def saveCrashOk (oldC newC : String) : Prop :=
  ∀ k, k ≤ (saveOps newC).length →
    runOps (initFs oldC) ((saveOps newC).take k) progress_file = some oldC ∨
    runOps (initFs oldC) ((saveOps newC).take k) progress_file = some newC

/-- A chunk that is recognized on the spot contributes exactly one fragment,
the capitalized text with ". " appended, and saves the updated checkpoint. -/
theorem processOne_succChunk (path : String) (i : Nat) (t : String)
    (acc : List String) (fs : Option StoredFile) :
    processOne path i (succChunk t) acc fs
      = (acc ++ [pyCapitalize t ++ ". "],
         some (StoredFile.valid ⟨path, i, acc ++ [pyCapitalize t ++ ". "]⟩)) :=
  rfl

/-- Over a list of chunks that are all recognized on the first attempt, the
chunk loop appends the normalized fragments to the accumulator in chunk
order. -/
theorem processLoop_succChunks_acc (path : String) :
    ∀ (ts : List String) (i : Nat) (acc : List String) (fs : Option StoredFile),
    (processLoop path i (succChunks ts) (acc, fs)).1
      = acc ++ ts.map (fun t => pyCapitalize t ++ ". ") := by
  intro ts
  induction ts with
  | nil => intro i acc fs; simp [succChunks, processLoop]
  | cons t ts ih =>
      intro i acc fs
      have step : processLoop path i (succChunks (t :: ts)) (acc, fs)
          = processLoop path (i + 1) (succChunks ts)
              (acc ++ [pyCapitalize t ++ ". "],
               some (StoredFile.valid ⟨path, i, acc ++ [pyCapitalize t ++ ". "]⟩)) := rfl
      rw [step, ih]
      simp

/-- The accumulator computed by the chunk loop does not depend on the
checkpoint-file state it starts from: the loop only writes that state. -/
theorem processOne_acc_indep (path : String) (i : Nat) (c : ChunkBehavior)
    (acc : List String) (fs fs' : Option StoredFile) :
    (processOne path i c acc fs).1 = (processOne path i c acc fs').1 := by
  rcases hres : (transcribe_chunk c 3 1).result with e | o
  · simp [processOne, hres]
  · cases o <;> simp [processOne, hres]

/-- The accumulator after the whole chunk loop does not depend on the
initial checkpoint-file state. -/
theorem processLoop_acc_indep (path : String) :
    ∀ (cs : List ChunkBehavior) (i : Nat) (acc : List String)
      (fs fs' : Option StoredFile),
    (processLoop path i cs (acc, fs)).1 = (processLoop path i cs (acc, fs')).1 := by
  intro cs
  induction cs with
  | nil => intro i acc fs fs'; rfl
  | cons c cs ih =>
      intro i acc fs fs'
      simp only [processLoop]
      have h1 := processOne_acc_indep path i c acc fs fs'
      rcases hA : processOne path i c acc fs with ⟨a1, f1⟩
      rcases hB : processOne path i c acc fs' with ⟨a2, f2⟩
      rw [hA, hB] at h1
      simp only at h1
      subst h1
      exact ih (i + 1) a1 f1 f2

/-- C1. The claim says a matching checkpoint makes the run resume at chunk
index lastCompletedIndex + 1, never re-processing the chunk at
lastCompletedIndex. The code instead sets start_index = last_chunk, so it
re-processes that chunk. Concretely: processing chunk 0 ("hello") from
scratch saves the checkpoint (file "a.mp3", last_chunk 0, text ["Hello. "]);
a run resumed from exactly that checkpoint transcribes chunk 0 again and
returns "Hello. Hello. ", duplicating the fragment, where the claimed
behaviour (start at index 1) would return "Hello. ". -/
theorem resume_reprocesses_last_chunk :
    processOne "a.mp3" 0 helloChunk [] none
      = (["Hello. "], some (StoredFile.valid ⟨"a.mp3", 0, ["Hello. "]⟩))
    ∧ (process_audio "a.mp3" [helloChunk]
        (some (StoredFile.valid ⟨"a.mp3", 0, ["Hello. "]⟩))).1 = "Hello. Hello. "
    ∧ ("Hello. Hello. " : String) ≠ "Hello. " := by
  refine ⟨rfl, rfl, ?_⟩
  decide

/-- C2. The claim says the checkpoint is persisted with lastCompletedIndex = i
after every attempt, including a tolerated Failed outcome. In the code the
save sits inside the try block, after the recognition call: when
transcribe_chunk raises (exhausted transient retries), the except branch
prints "Saving progress and continuing..." but jumps past the save. At chunk
index 0 of a chunk whose every attempt hits a network error, the stored
checkpoint is left exactly as it was — absent, or still holding the previous
record — instead of being rewritten with last_chunk = 0. For contrast, an
Unintelligible attempt does save. -/
theorem failed_chunk_skips_checkpoint_save :
    processOne "a.mp3" 0 alwaysNetworkError [] none = ([], none)
    ∧ processOne "a.mp3" 0 alwaysNetworkError []
        (some (StoredFile.valid ⟨"a.mp3", 5, ["x"]⟩))
      = ([], some (StoredFile.valid ⟨"a.mp3", 5, ["x"]⟩))
    ∧ processOne "a.mp3" 0 (fun _ => RecognitionOutcome.unknownValue) [] none
      = ([], some (StoredFile.valid ⟨"a.mp3", 0, []⟩)) :=
  ⟨rfl, rfl, rfl⟩

/-- C3. The claim says resuming from a checkpoint saved after chunks 0..i
yields the same transcript as an uninterrupted from-scratch run. With chunks
"hello" then "bye": the from-scratch run saves (file "s.mp3", last_chunk 0,
text ["Hello. "]) after chunk 0 and finishes with "Hello. Bye. "; resuming
from that checkpoint re-processes chunk 0 and finishes with
"Hello. Hello. Bye. ", which differs. -/
theorem resume_not_idempotent :
    (processOne "s.mp3" 0 helloChunk [] none).2
      = some (StoredFile.valid ⟨"s.mp3", 0, ["Hello. "]⟩)
    ∧ (process_audio "s.mp3" [helloChunk, byeChunk] none).1 = "Hello. Bye. "
    ∧ (process_audio "s.mp3" [helloChunk, byeChunk]
        (some (StoredFile.valid ⟨"s.mp3", 0, ["Hello. "]⟩))).1
      = "Hello. Hello. Bye. "
    ∧ ("Hello. Hello. Bye. " : String) ≠ "Hello. Bye. " := by
  refine ⟨rfl, rfl, rfl, ?_⟩
  decide

/-- C4. A chunk whose every recognition attempt raises a transient network
error is attempted exactly 3 times (the default maxAttempts), with sleeps of
1 then 2 seconds between consecutive attempts (base delay 1, doubled each
time), after which the failure propagates to the caller; a chunk whose first
attempt raises UnknownValueError returns the Unintelligible outcome (None)
immediately: one attempt, no sleeps. -/
theorem retry_bound_and_unintelligible_immediate
    (recFail recUnk : Nat → RecognitionOutcome)
    (hFail : ∀ n, recFail n = RecognitionOutcome.requestError)
    (hUnk : recUnk 0 = RecognitionOutcome.unknownValue) :
    transcribe_chunk recFail 3 1
      = ⟨Except.error (), [1, 2], 3⟩
    ∧ transcribe_chunk recUnk 3 1 = ⟨Except.ok none, [], 1⟩ := by
  constructor
  · simp [transcribe_chunk, transcribeChunkGo, hFail]
  · simp [transcribe_chunk, transcribeChunkGo, hUnk]

/-- C4 witness: the retry-bound theorem instantiated with the constant
always-network-error recognizer and the constant unintelligible recognizer. -/
theorem retry_bound_and_unintelligible_immediate_witness :
    transcribe_chunk (fun _ => RecognitionOutcome.requestError) 3 1
      = ⟨Except.error (), [1, 2], 3⟩
    ∧ transcribe_chunk (fun _ => RecognitionOutcome.unknownValue) 3 1
      = ⟨Except.ok none, [], 1⟩ :=
  retry_bound_and_unintelligible_immediate _ _ (fun _ => rfl) rfl

/-- C5. A recognized chunk contributes the fragment made of the service text
normalized by capitalize, a terminal period and a single trailing space; a
from-scratch run over chunks that all transcribe successfully returns the
fragments concatenated in chunk order with no added separator; in particular
the two service texts "hello world" and "goodbye now" yield the transcript
"Hello world. Goodbye now. ". -/
theorem fragment_format_and_concatenation
    (rec : Nat → RecognitionOutcome) (t : String)
    (hrec : rec 0 = RecognitionOutcome.transcribed t)
    (path : String) (ts : List String) (hts : ts ≠ []) :
    (transcribe_chunk rec 3 1).result = Except.ok (some (pyCapitalize t ++ ". "))
    ∧ (process_audio path (succChunks ts) none).1
      = String.join (ts.map (fun s => pyCapitalize s ++ ". "))
    ∧ (process_audio "demo.mp3" (succChunks ["hello world", "goodbye now"]) none).1
      = "Hello world. Goodbye now. " := by
  refine ⟨?_, ?_, rfl⟩
  · simp [transcribe_chunk, transcribeChunkGo, hrec]
  · have h : (runAccum path (succChunks ts) none).1
        = ts.map (fun s => pyCapitalize s ++ ". ") := by
      simpa [runAccum, loadResume] using processLoop_succChunks_acc path ts 0 [] none
    have hne : ts.map (fun s => pyCapitalize s ++ ". ") ≠ [] := by
      simpa using hts
    simp [process_audio, h, hne]

/-- C5 witness: the fragment-format and concatenation theorem at the
constant recognizer for "hey", the single-chunk list ["hey"], and the
two-chunk example from the claim. -/
theorem fragment_format_and_concatenation_witness :
    (transcribe_chunk (fun _ => RecognitionOutcome.transcribed "hey") 3 1).result
      = Except.ok (some (pyCapitalize "hey" ++ ". "))
    ∧ (process_audio "w.mp3" (succChunks ["hey"]) none).1
      = String.join (["hey"].map (fun s => pyCapitalize s ++ ". "))
    ∧ (process_audio "demo.mp3" (succChunks ["hello world", "goodbye now"]) none).1
      = "Hello world. Goodbye now. " :=
  fragment_format_and_concatenation _ "hey" rfl "w.mp3" ["hey"] (by simp)

/-- C6. A run whose chunk loop ends with an empty accumulator returns the
"no speech recognized" sentinel together with a cleared checkpoint file, and
so does the zero-chunk run; neither is an error (process_audio still returns
a value). -/
theorem empty_accumulator_returns_sentinel
    (path : String) (chunks : List ChunkBehavior) (fs0 : Option StoredFile)
    (h : (runAccum path chunks fs0).1 = []) :
    process_audio path chunks fs0 = (noSpeech, none)
    ∧ process_audio path [] none = (noSpeech, none) := by
  constructor
  · simp [process_audio, h]
  · simp [process_audio, runAccum, loadResume, processLoop]

/-- C6 witness: the sentinel theorem at a run whose single chunk fails every
attempt with a network error, leaving the accumulator empty. -/
theorem empty_accumulator_returns_sentinel_witness :
    process_audio "w6.mp3" [alwaysNetworkError] none = (noSpeech, none)
    ∧ process_audio "w6.mp3" [] none = (noSpeech, none) :=
  empty_accumulator_returns_sentinel "w6.mp3" [alwaysNetworkError] none rfl

/-- C7. A stored checkpoint whose file field differs from the current path,
or one that cannot be parsed, is ignored: resume yields start index 0 and an
empty accumulator, and the whole run behaves exactly as a run with no
checkpoint present — in particular it returns normally, never surfacing the
stale or corrupt checkpoint as a failure. -/
theorem stale_or_corrupt_checkpoint_ignored
    (path : String) (chunks : List ChunkBehavior) (p : Progress)
    (hstale : p.file ≠ path) :
    loadResume path (some (StoredFile.valid p)) = (0, [])
    ∧ loadResume path (some StoredFile.corrupt) = (0, [])
    ∧ process_audio path chunks (some (StoredFile.valid p))
      = process_audio path chunks none
    ∧ process_audio path chunks (some StoredFile.corrupt)
      = process_audio path chunks none := by
  have hload : loadResume path (some (StoredFile.valid p)) = (0, []) := by
    simp [loadResume, hstale]
  refine ⟨hload, rfl, ?_, ?_⟩
  · have h : (runAccum path chunks (some (StoredFile.valid p))).1
        = (runAccum path chunks none).1 := by
      simp only [runAccum]
      rw [hload]
      exact processLoop_acc_indep path _ 0 [] _ _
    simp [process_audio, h]
  · have h : (runAccum path chunks (some StoredFile.corrupt)).1
        = (runAccum path chunks none).1 := by
      simp only [runAccum]
      exact processLoop_acc_indep path _ 0 [] _ _
    simp [process_audio, h]

/-- C7 witness: the stale/corrupt-checkpoint theorem at path "a.mp3", a
single recognized chunk, and a checkpoint recorded for "b.mp3". -/
theorem stale_or_corrupt_checkpoint_ignored_witness :
    loadResume "a.mp3" (some (StoredFile.valid ⟨"b.mp3", 3, ["Zzz. "]⟩)) = (0, [])
    ∧ loadResume "a.mp3" (some StoredFile.corrupt) = (0, [])
    ∧ process_audio "a.mp3" [helloChunk]
        (some (StoredFile.valid ⟨"b.mp3", 3, ["Zzz. "]⟩))
      = process_audio "a.mp3" [helloChunk] none
    ∧ process_audio "a.mp3" [helloChunk] (some StoredFile.corrupt)
      = process_audio "a.mp3" [helloChunk] none :=
  stale_or_corrupt_checkpoint_ignored "a.mp3" [helloChunk]
    ⟨"b.mp3", 3, ["Zzz. "]⟩ (by decide)

/-- C8 counterexample. The claimed atomicity fails: interrupting the code's
save between the truncating open and the completed write leaves the
checkpoint file empty — neither the old serialized checkpoint ("OLD") nor
the new one ("NEW") — so an interruption during the save can corrupt the
checkpoint file. -/
theorem save_not_atomic : ¬ saveCrashOk "OLD" "NEW" := by
  intro h
  have h1 := h 1 (by decide)
  have hval : runOps (initFs "OLD") ((saveOps "NEW").take 1) progress_file
      = some "" := rfl
  rw [hval] at h1
  rcases h1 with h1 | h1
  · exact absurd h1 (by decide)
  · exact absurd h1 (by decide)

/-- C8 amended. Each checkpoint save opens transcription_progress.json
itself for writing — truncating it in place — and then writes the new JSON;
no temporary file and no rename is involved. A completed save does leave the
full new checkpoint, but the state after the truncation alone is an empty
file, so an interruption mid-save can leave a corrupt checkpoint. -/
theorem save_overwrites_in_place (oldC newC : String) :
    saveOps newC = [FsOp.truncate progress_file, FsOp.writeAll progress_file newC]
    ∧ runOps (initFs oldC) (saveOps newC) progress_file = some newC
    ∧ runOps (initFs oldC) ((saveOps newC).take 1) progress_file = some "" := by
  refine ⟨rfl, ?_, ?_⟩
  · simp [saveOps, runOps, applyOp, initFs, String.empty_append]
  · simp [saveOps, runOps, applyOp, initFs]

/-- C9. The checkpoint location is the fixed relative path
"transcription_progress.json", independent of the audio source; every run of
process_audio ends with the checkpoint file removed, and in particular a run
on "b.mp3" that finds zero chunks still deletes a leftover checkpoint that
belongs to the different source "a.mp3". -/
theorem checkpoint_path_fixed_and_cleanup
    (path : String) (chunks : List ChunkBehavior) (fs0 : Option StoredFile) :
    progress_file = "transcription_progress.json"
    ∧ (process_audio path chunks fs0).2 = none
    ∧ process_audio "b.mp3" [] (some (StoredFile.valid ⟨"a.mp3", 2, ["Hi. "]⟩))
      = (noSpeech, none) :=
  ⟨rfl, rfl, rfl⟩

/-- C10. Normalization is Python str.capitalize plus ". ": on a non-empty
text the first character is upper-cased and every later character is
lower-cased, so mixed-case service output is not preserved: "NASA rocks"
becomes "Nasa rocks" and the appended fragment is "Nasa rocks. ". -/
theorem capitalize_lowercases_rest (c : Char) (cs : List Char) :
    pyCapitalize (String.mk (c :: cs)) = String.mk (c.toUpper :: cs.map Char.toLower)
    ∧ pyCapitalize "NASA rocks" = "Nasa rocks"
    ∧ (transcribe_chunk (fun _ => RecognitionOutcome.transcribed "NASA rocks") 3 1).result
      = Except.ok (some "Nasa rocks. ") :=
  ⟨rfl, rfl, rfl⟩

end FreeSpeechToText
